import Mathlib

/-!
Verification development for the ID_Printer card-acquisition pipeline.

The Python sources embedded here are `modules/nhi_card_dll.py`,
`modules/card_reader.py` and `modules/data_processor.py`.  Python strings are
modelled as Lean `String` (a wrapper around `List Char`, matching Python's
character-indexed strings); `dict` results are records; functions that can
raise return `Except String _` or pair their result with the raised message.
Python's `re.search` on the handful of concrete patterns the code uses is
implemented directly as leftmost-match scanners over `List Char`.
-/

namespace IDPrinter

/-! ## Python string primitives -/

/-- Python's `str.strip()` whitespace set (ASCII part; the inputs handled by
this codebase are ASCII plus CJK, and CJK characters are never whitespace). -/
def pyWhitespace (c : Char) : Bool :=
  c = ' ' || c = '\t' || c = '\n' || c = '\r' || c = '\x0b' || c = '\x0c'

/-- Python `s.strip()`. -/
def pyStrip (s : String) : String :=
  String.mk (((s.data.dropWhile pyWhitespace).reverse.dropWhile pyWhitespace).reverse)

/-- Python `s[a:b]` for `0 ≤ a ≤ b` (clamped at the end of the string, as in
Python). -/
def pySlice (s : String) (a b : Nat) : String :=
  String.mk ((s.data.drop a).take (b - a))

/-- Python `c in s` for a single character. -/
def pyContains (s : String) (c : Char) : Bool :=
  s.data.contains c

/-- Splitting a character list on a separator character, Python
`str.split(sep)` semantics: always at least one part, adjacent separators
produce empty parts. -/
def pySplitCharList (sep : Char) : List Char → List (List Char)
  | [] => [[]]
  | x :: xs =>
    let r := pySplitCharList sep xs
    if x = sep then [] :: r
    else
      match r with
      | h :: t => (x :: h) :: t
      | [] => [[x]]

/-- Python `s.split(sep)` for a one-character separator. -/
def pySplit (s : String) (sep : Char) : List String :=
  (pySplitCharList sep s.data).map String.mk

def isDigit09 (c : Char) : Bool := '0' ≤ c && c ≤ '9'

def isUpperAZ (c : Char) : Bool := 'A' ≤ c && c ≤ 'Z'

/-- The CJK ideograph range `[一-鿿]` used by the name patterns. -/
def isCJK (c : Char) : Bool := 0x4e00 ≤ c.val && c.val ≤ 0x9fff

def digitVal (c : Char) : Nat := c.toNat - '0'.toNat

def digitsToNat (cs : List Char) : Nat :=
  cs.foldl (fun acc c => 10 * acc + digitVal c) 0

/-- Python `int(s)`: optional surrounding whitespace, an optional sign, then a
non-empty digit run.  (Underscore separators and non-ASCII digits, which
Python would also accept, never occur in this codebase's inputs and are not
modelled.) -/
def pyInt (s : String) : Option Int :=
  let t := (pyStrip s).data
  let signed : Int × List Char :=
    match t with
    | '+' :: r => (1, r)
    | '-' :: r => (-1, r)
    | r => (1, r)
  if signed.2 ≠ [] ∧ signed.2.all isDigit09 then
    some (signed.1 * (digitsToNat signed.2 : Int))
  else none

/-! ## Leftmost regex search

Each pattern is a function giving the length matched at a given start
position (`none` when the pattern does not match there); `reSearch` returns
the `(start, length)` of the leftmost match, exactly `re.search`'s choice for
the patterns used by the source (none of which has a continuation after its
final quantifier, so the greedy length at the leftmost position is the
match). -/

def reSearch (pat : List Char → Option Nat) : List Char → Option (Nat × Nat)
  | [] => (pat []).map fun l => (0, l)
  | c :: rest =>
    match pat (c :: rest) with
    | some l => some (0, l)
    | none => (reSearch pat rest).map fun p => (p.1 + 1, p.2)

/-- `[A-Z][0-9]{9}` at the current position. -/
def idPatLen (cs : List Char) : Option Nat :=
  match cs with
  | [] => none
  | c :: rest =>
    let d9 := rest.take 9
    if isUpperAZ c && d9.length == 9 && d9.all isDigit09 then some 10 else none

/-- `[一-鿿]{2,5}` (greedy) at the current position. -/
def cjkLen25 (cs : List Char) : Option Nat :=
  let k := (cs.takeWhile isCJK).length
  if 2 ≤ k then some (min k 5) else none

/-- `[一-鿿]+` (greedy) at the current position. -/
def cjkLenPlus (cs : List Char) : Option Nat :=
  let k := (cs.takeWhile isCJK).length
  if 1 ≤ k then some k else none

/-- `[0-9]{7}` at the current position. -/
def digitLen7 (cs : List Char) : Option Nat :=
  let d7 := cs.take 7
  if d7.length == 7 && d7.all isDigit09 then some 7 else none

/-- `\d{7,8}` (greedy) at the current position. -/
def digitLen78 (cs : List Char) : Option Nat :=
  let k := (cs.takeWhile isDigit09).length
  if 8 ≤ k then some 8 else if 7 ≤ k then some 7 else none

/-- `match.group()`: the text of the match `(start, length)`. -/
def extractMatch (cs : List Char) (start len : Nat) : String :=
  String.mk ((cs.drop start).take len)

/-! ## Data model

`_parse_delimited_data` / `_parse_fixed_length_data` / `_parse_regex_data`
build a five-key dict; `_parse_card_data_by_format` additionally keeps the
whole decoded blob under `CARD_WHOLE_STR`. -/

structure CardData where
  ID_NUMBER : String
  FULL_NAME : String
  BIRTH_DATE : String
  SEX : String
  CARD_NUMBER : String
  deriving Repr, DecidableEq

structure FmtCardData where
  ID_NUMBER : String
  FULL_NAME : String
  BIRTH_DATE : String
  SEX : String
  CARD_NUMBER : String
  CARD_WHOLE_STR : String
  deriving Repr, DecidableEq

/-! ## nhi_card_dll._parse_csreadcard_data and its three sub-parsers -/

/-- `NHICardDLL._parse_delimited_data(parts)`:
`parts[i].strip() if len(parts) > i else ""` positionally. -/
def parse_delimited_data (parts : List String) : CardData :=
  { ID_NUMBER := pyStrip (parts.getD 0 "")
    FULL_NAME := pyStrip (parts.getD 1 "")
    BIRTH_DATE := pyStrip (parts.getD 2 "")
    SEX := pyStrip (parts.getD 3 "")
    CARD_NUMBER := pyStrip (parts.getD 4 "") }

/-- `NHICardDLL._parse_fixed_length_data(data)`: fixed columns when the
text has at least 38 characters, else `None`. -/
def parse_fixed_length_data (data : String) : Option CardData :=
  if 38 ≤ data.length then
    some
      { ID_NUMBER := pyStrip (pySlice data 0 10)
        FULL_NAME := pyStrip (pySlice data 10 30)
        BIRTH_DATE := pyStrip (pySlice data 30 38)
        SEX := if 38 < data.length then pyStrip (pySlice data 38 39) else ""
        CARD_NUMBER := if 50 < data.length then pyStrip (pySlice data 39 51) else "" }
  else none

/-- `NHICardDLL._parse_regex_data(data)`: independent searches for the ID,
birth-date and name patterns; succeeds only when both ID and name are found. -/
def parse_regex_data (data : String) : Option CardData :=
  let id_match := reSearch idPatLen data.data
  let birth_match := reSearch digitLen78 data.data
  let name_match := reSearch cjkLenPlus data.data
  match id_match, name_match with
  | some im, some nm =>
    some
      { ID_NUMBER := extractMatch data.data im.1 im.2
        FULL_NAME := extractMatch data.data nm.1 nm.2
        BIRTH_DATE :=
          match birth_match with
          | some bm => extractMatch data.data bm.1 bm.2
          | none => ""
        SEX := ""
        CARD_NUMBER := "" }
  | _, _ => none

/-- The delimiter priority list of `_parse_csreadcard_data`. -/
def delims : List Char := ['|', ',', '\t', ';']

/-- The first delimiter (in list order) that occurs in `data` and whose split
yields at least 3 parts — the loop
`for delimiter in ['|', ',', '\t', ';']: if delimiter in data: ... if len(parts) >= 3: ... break`. -/
def firstDelim (data : String) : Option Char :=
  delims.find? fun d => pyContains data d && decide (3 ≤ (pySplit data d).length)

/-- `NHICardDLL._parse_csreadcard_data(raw_data)`.  Errors raised inside the
method body are re-raised by its `except Exception` handler with the
`"解析健保卡資料失敗: "` prefix. -/
def parse_csreadcard_data (raw_data : String) : Except String CardData :=
  let data := pyStrip raw_data
  if data = "" then
    .error ("解析健保卡資料失敗: " ++ "csReadCard 回傳空資料")
  else
    match firstDelim data with
    | some d => .ok (parse_delimited_data (pySplit data d))
    | none =>
      match parse_fixed_length_data data with
      | some r => .ok r
      | none =>
        match parse_regex_data data with
        | some r => .ok r
        | none => .error ("解析健保卡資料失敗: " ++ "無法解析 csReadCard 回傳的資料格式")

/-! ## nhi_card_dll._parse_card_data_by_format (Strategy A's positional parse)

The method's `try` body is total (every regex/string step below is), so its
`except`-fallback branch is unreachable and is not modelled. -/

/-- `NHICardDLL._parse_card_data_by_format(card_whole_str)` on the decoded
character sequence. -/
def parse_card_data_by_format (cs : List Char) : FmtCardData :=
  let n := cs.length
  -- 1. card number: first 12 characters when available
  let card_number := if 12 ≤ n then pyStrip (String.mk (cs.take 12)) else ""
  -- 2. name: leftmost run of 2–5 CJK characters, searched from the start
  let nameRes := reSearch cjkLen25 cs
  let full_name :=
    match nameRes with
    | some nm => pyStrip (extractMatch cs nm.1 nm.2)
    | none => ""
  let name_end_pos :=
    match nameRes with
    | some nm => nm.1 + nm.2
    | none => 12
  -- 3. ID: `[A-Z][0-9]{9}` searched from the end of the name; fixed columns
  --    33–42 (0-based 32..42) as a fallback when the string is long enough
  let idRes := reSearch idPatLen (cs.drop name_end_pos)
  let id_number :=
    match idRes with
    | some im => pyStrip (extractMatch (cs.drop name_end_pos) im.1 im.2)
    | none => if 42 ≤ n then pyStrip (String.mk ((cs.drop 32).take 10)) else ""
  let id_end_pos :=
    match idRes with
    | some im => name_end_pos + im.1 + im.2
    | none => if 42 ≤ n then 42 else name_end_pos
  -- 4. birth date: `[0-9]{7}` searched after the ID (kept in ROC format)
  let birthRes := if id_end_pos < n then reSearch digitLen7 (cs.drop id_end_pos) else none
  let birth_date :=
    match birthRes with
    | some bm => extractMatch (cs.drop id_end_pos) bm.1 bm.2
    | none => ""
  let birth_end_pos :=
    match birthRes with
    | some bm => id_end_pos + bm.1 + bm.2
    | none => id_end_pos
  -- 5. sex: the single character after the birth date, mapped M/1→男, F/2→女
  let sex :=
    if birth_end_pos < n then
      let sex_char := pyStrip (String.mk ((cs.drop birth_end_pos).take 1))
      if sex_char = "M" ∨ sex_char = "1" then "男"
      else if sex_char = "F" ∨ sex_char = "2" then "女"
      else sex_char
    else ""
  { ID_NUMBER := id_number
    FULL_NAME := full_name
    BIRTH_DATE := birth_date
    SEX := sex
    CARD_NUMBER := card_number
    CARD_WHOLE_STR := String.mk cs }

/-- The decode-and-validate tail of
`NHICardDLL._read_card_with_hisgetbasicdata` (source lines 416–423): parse the
decoded blob, then raise unless `ID_NUMBER` is non-empty.  `FULL_NAME` is not
checked. -/
def hisgetbasicdata_decode (cs : List Char) : Except String FmtCardData :=
  let card_data := parse_card_data_by_format cs
  if card_data.ID_NUMBER = "" then
    .error "無法從健保卡資料中提取身份證號碼"
  else
    .ok card_data

/-! ## nhi_card_dll: the hisGetBasicData return-code check (lines 377–395) -/

/-- The `error_messages` lookup table keyed by the native return code. -/
def error_messages : List (Int × String) :=
  [(4000, "健保卡未插入或讀取失敗\n\n請確認：\n1. 健保卡已正確插入讀卡機\n2. 讀卡機已正確連接至電腦\n3. 讀卡機電源已開啟\n4. 讀卡機驅動程式已正確安裝"),
   (9200, "COM 埠開啟失敗\n\n請確認讀卡機連接正常"),
   (9205, "SAM 認證失敗\n\n請確認讀卡機驅動程式已正確安裝")]

/-- Python `d.get(k, default)` on an association list. -/
def dictGet (l : List (Int × String)) (k : Int) (dflt : String) : String :=
  match l.lookup k with
  | some v => v
  | none => dflt

/-- `if result != 0: ... raise NHICardDLLError(error_msg)`: `none` when the
call succeeded (code 0), otherwise the message of the raised error. -/
def his_result_check (result : Int) : Option String :=
  if result = 0 then none
  else some (dictGet error_messages result
    ("hisGetBasicData 執行失敗，錯誤碼: " ++ toString result))

/-! ## nhi_card_dll: DLL path resolution (`__init__` + `_get_default_dll_path`)

The filesystem is a parameter: `exists_ p` is `os.path.exists(p)`. -/

structure PathEnv where
  exists_ : String → Bool

/-- `dll_files`: the two bundled filenames, in priority order. -/
def dll_files : List String := ["CsHis.dll", "CsHis50.dll"]

/-- `os.path.join(a, b)` on Windows for a directory `a` with no trailing
separator (the only shape the resolver builds). -/
def joinPath (a b : String) : String := a ++ "\\" ++ b

/-- `NHICardDLL._get_default_dll_path()`: search only the project `DLL`
folder for `CsHis.dll` then `CsHis50.dll`; when neither exists, return the
first expected path so the caller's load fails with a clear message. -/
def get_default_dll_path (env : PathEnv) (project_dir : String) : String :=
  let dll_folder := joinPath project_dir "DLL"
  match dll_files.find? (fun f => env.exists_ (joinPath dll_folder f)) with
  | some f => joinPath dll_folder f
  | none => joinPath dll_folder (dll_files.getD 0 "")

/-- `self.dll_path = dll_path or self._get_default_dll_path()` in
`NHICardDLL.__init__`: a `None` or empty explicit path is falsy and falls
through to the default; any other explicit path is used as given, with no
existence check. -/
def resolve_dll_path (env : PathEnv) (dll_path : Option String)
    (project_dir : String) : String :=
  match dll_path with
  | some p => if p ≠ "" then p else get_default_dll_path env project_dir
  | none => get_default_dll_path env project_dir

/-! ## nhi_card_dll._load_dll: working-directory handling (lines 176–197)

State is the process working directory.  `dirExists`/`chdirOk` model
`os.path.exists`/`os.chdir` success, `loadErr` the outcome of
`ctypes.CDLL(self.dll_path)`.  The function returns the working directory
after `_load_dll` finishes and the message of the `NHICardDLLError` raised
by the method's `except` handler, if any. -/

/-- `os.path.dirname` for plain Windows/POSIX paths without drive-relative
forms: everything before the last path separator. -/
def pyDirname (p : String) : String :=
  let cs := p.data.reverse
  let rest := cs.dropWhile (fun c => c ≠ '/' ∧ c ≠ '\\')
  String.mk (rest.drop 1).reverse

structure LoadWorld where
  cwd : String
  dirExists : String → Bool
  chdirOk : String → Bool
  loadErr : Option String

/-- The standard (ctypes) branch of `NHICardDLL._load_dll`: save the working
directory, `chdir` into the DLL's directory when it exists (failures of the
`chdir` itself are swallowed), load the DLL, and `chdir` back — the restore
is executed only on the success path; a load failure propagates through the
`except` handler without restoring. -/
def load_dll_std (w : LoadWorld) (dll_path : String) : String × Option String :=
  let dll_dir := pyDirname dll_path
  let original_cwd := w.cwd
  let cwd1 :=
    if w.dirExists dll_dir then
      if w.chdirOk dll_dir then dll_dir else original_cwd
    else original_cwd
  match w.loadErr with
  | some e => (cwd1, some ("載入標準健保署 DLL 失敗: " ++ e))
  | none =>
    let cwd2 := if w.chdirOk original_cwd then original_cwd else cwd1
    (cwd2, none)

/-! ## nhi_card_dll.read_card / release (lines 270–302, 828–839)

The read body (whichever strategy ran) is abstracted as its outcome; the
native `NHI_Release` call inside `release()` as an `Except` behaviour. -/

/-- Outcome of a Python call: a value, a raised `NHICardDLLError`, or any
other raised exception. -/
inductive ReadOutcome where
  | ok (v : FmtCardData)
  | dllError (msg : String)
  | otherError (msg : String)
  deriving Repr, DecidableEq

/-- `NHICardDLL.release()`: when loaded and the DLL has `NHI_Release`, call
it once; any exception the native call raises is caught by the method's
`except Exception` handler and logged.  Returns (exception propagated out of
`release`, number of native release invocations). -/
def release_run (inited hasNHIRelease : Bool) (native : Except String Unit) :
    Option String × Nat :=
  if inited then
    if hasNHIRelease then
      match native with
      | .ok _ => (none, 1)
      | .error _ => (none, 1)   -- caught: `except Exception as e: logger.debug(...)`
    else (none, 0)
  else (none, 0)

/-- `NHICardDLL.read_card()`: raise when not loaded; otherwise run the
strategy body inside `try`, re-raise `NHICardDLLError` as-is, wrap any other
exception, and run `self.release()` in the `finally` block.  Returns the
outcome together with the number of times the release step ran. -/
def read_card_run (inited hasNHIRelease : Bool) (body : ReadOutcome)
    (native : Except String Unit) : ReadOutcome × Nat :=
  if inited then
    let outcome :=
      match body with
      | .ok v => ReadOutcome.ok v
      | .dllError m => ReadOutcome.dllError m
      | .otherError m => ReadOutcome.dllError ("讀取健保卡時發生未知錯誤: " ++ m)
    let rel := release_run inited hasNHIRelease native
    match rel.1 with
    | some e => (ReadOutcome.otherError e, 1)  -- a raise in `finally` would replace the outcome
    | none => (outcome, 1)
  else (ReadOutcome.dllError "DLL 尚未載入", 0)

/-! ## card_reader.CardReader.read_patient_info (lines 572–598)

Explicit interleaving model.  A `request` is one synchronous call to
`read_patient_info`: it tests `self.is_reading` and either invokes the new
caller's error callback with the busy error, or spawns a worker thread.  The
worker's first statement (`self.is_reading = True`) and its `finally`
(`self.is_reading = False`) are separate scheduler steps, exactly as in the
source, where the flag is set inside the thread body after `start()`. -/

structure CRState where
  is_reading : Bool
  pending : List Nat   -- worker threads spawned, first statement not yet run
  running : List Nat   -- worker threads past `self.is_reading = True`
  deriving Repr, DecidableEq

inductive CRAct where
  | request (id : Nat)
  | beginWorker (id : Nat)
  | finishWorker (id : Nat)
  deriving Repr, DecidableEq

inductive CREv where
  | busyCallback (id : Nat)   -- error_callback(CardReaderError("讀卡機正在讀取中，請稍候"))
  | completed (id : Nat)      -- the worker invoked its success/error callback
  deriving Repr, DecidableEq

def crInit : CRState := { is_reading := false, pending := [], running := [] }

def crStep (s : CRState) : CRAct → CRState × List CREv
  | .request id =>
    if s.is_reading then (s, [CREv.busyCallback id])
    else ({ s with pending := s.pending ++ [id] }, [])
  | .beginWorker id =>
    if s.pending.contains id then
      ({ is_reading := true, pending := s.pending.erase id,
         running := s.running ++ [id] }, [])
    else (s, [])
  | .finishWorker id =>
    if s.running.contains id then
      ({ s with is_reading := false, running := s.running.erase id },
       [CREv.completed id])
    else (s, [])

def crRun (s : CRState) : List CRAct → CRState × List CREv
  | [] => (s, [])
  | a :: rest =>
    let (s1, evs1) := crStep s a
    let (s2, evs2) := crRun s1 rest
    (s2, evs1 ++ evs2)

/-! ## data_processor.DataProcessor.process_raw_data -/

def pad2 (n : Nat) : String := if n < 10 then "0" ++ toString n else toString n

def pad4 (n : Nat) : String :=
  if n < 10 then "000" ++ toString n
  else if n < 100 then "00" ++ toString n
  else if n < 1000 then "0" ++ toString n
  else toString n

def isLeapYear (y : Nat) : Bool := y % 4 == 0 && (y % 100 != 0 || y % 400 == 0)

def daysInMonth (y m : Nat) : Nat :=
  if m = 2 then (if isLeapYear y then 29 else 28)
  else if m = 4 ∨ m = 6 ∨ m = 9 ∨ m = 11 then 30
  else 31

/-- Validity of `datetime.datetime(y, m, d)` (raises `ValueError` outside
these bounds). -/
def datetimeOk (y m d : Int) : Bool :=
  1 ≤ y && y ≤ 9999 && 1 ≤ m && m ≤ 12 && 1 ≤ d &&
    d ≤ (daysInMonth y.toNat m.toNat : Int)

/-- `datetime.datetime.strptime(s, "%Y%m%d")` on an 8-character string: four
digits of year, a two-digit month 01–12, a two-digit day that exists in that
month (and year ≥ 1, as `datetime` requires). -/
def strptime_Ymd (s : String) : Option (Nat × Nat × Nat) :=
  let cs := s.data
  if cs.length == 8 && cs.all isDigit09 then
    let y := digitsToNat (cs.take 4)
    let m := digitsToNat ((cs.drop 4).take 2)
    let d := digitsToNat ((cs.drop 6).take 2)
    if 1 ≤ y ∧ 1 ≤ m ∧ m ≤ 12 ∧ 1 ≤ d ∧ d ≤ daysInMonth y m then
      some (y, m, d)
    else none
  else none

def formatYmd (y m d : Nat) : String := pad4 y ++ "/" ++ pad2 m ++ "/" ++ pad2 d

/-- The birth-date normalization block of
`DataProcessor.process_raw_data` (source lines 33–58): strip, then parse
length 8 as Gregorian `YYYYMMDD`, length 7 as ROC `YYYMMDD` (+1911), and map
everything else to one of the marker strings.  `ValueError`s from
`strptime`/`int`/`datetime` are caught and become `"格式錯誤"`; the block
never raises. -/
def normalize_dob (raw : String) : String :=
  let raw_dob := pyStrip raw
  if raw_dob ≠ "" ∧ 7 ≤ raw_dob.length then
    if raw_dob.length = 8 then
      match strptime_Ymd raw_dob with
      | some (y, m, d) => formatYmd y m d
      | none => "格式錯誤"
    else if raw_dob.length = 7 then
      match pyInt (pySlice raw_dob 0 3), pyInt (pySlice raw_dob 3 5),
            pyInt (pySlice raw_dob 5 7) with
      | some y3, some mo, some dd =>
        let y := y3 + 1911
        if datetimeOk y mo dd then formatYmd y.toNat mo.toNat dd.toNat
        else "格式錯誤"
      | _, _, _ => "格式錯誤"
    else
      if pyContains raw_dob '/' then raw_dob else "格式不明"
  else "資料不完整"

/-- The raw dict handed to `process_raw_data` (keys read via
`raw_data.get(k, "")`). -/
structure RawCardInput where
  ID_NUMBER : String := ""
  FULL_NAME : String := ""
  BIRTH_DATE : String := ""
  SEX : String := ""
  deriving Repr, DecidableEq

/-- The processed dict, minus the wall-clock `read_time` field. -/
structure ProcessedData where
  id : String
  name : String
  dob : String
  sex : String
  deriving Repr, DecidableEq

/-- `DataProcessor.process_raw_data(raw_data)`: validate the stripped ID
(non-empty and exactly 10 characters) and the stripped name (non-empty),
normalize the birth date, standardize the sex field.  The
`DataProcessingError`s raised inside are re-raised by the method's
`except Exception` handler with the `"處理原始資料失敗: "` prefix. -/
def process_raw_data (raw : RawCardInput) : Except String ProcessedData :=
  let patient_id := pyStrip raw.ID_NUMBER
  let patient_name := pyStrip raw.FULL_NAME
  if patient_id = "" ∨ patient_id.length ≠ 10 then
    .error ("處理原始資料失敗: " ++ "身分證字號格式不正確")
  else if patient_name = "" then
    .error ("處理原始資料失敗: " ++ "姓名資料不完整")
  else
    let patient_dob := normalize_dob raw.BIRTH_DATE
    let s0 := pyStrip raw.SEX
    let patient_sex :=
      if s0 ≠ "" then
        if s0 = "1" ∨ s0 = "M" ∨ s0 = "男" ∨ s0 = "Male" then "男"
        else if s0 = "2" ∨ s0 = "F" ∨ s0 = "女" ∨ s0 = "Female" then "女"
        else "未知"
      else ""
    .ok { id := patient_id, name := patient_name, dob := patient_dob,
          sex := patient_sex }

/-! ## Helper lemmas -/

theorem pyContains_empty (c : Char) : pyContains "" c = false := rfl

theorem ne_empty_of_pyContains {s : String} {c : Char}
    (h : pyContains s c = true) : s ≠ "" := by
  intro he
  subst he
  rw [pyContains_empty] at h
  exact Bool.noConfusion h

/-! ## C1 -/

/-- C1 counterexample: on the blob `"000073191033A123456789"` (a card number
followed by an ID, with no CJK name anywhere), the Strategy-A decoder returns
a record whose `FULL_NAME` is empty instead of raising. -/
theorem hisgetbasicdata_decode_cex :
    ∃ r, hisgetbasicdata_decode "000073191033A123456789".data = Except.ok r
      ∧ r.FULL_NAME = "" :=
  ⟨{ ID_NUMBER := "A123456789", FULL_NAME := "", BIRTH_DATE := "", SEX := "",
     CARD_NUMBER := "000073191033",
     CARD_WHOLE_STR := "000073191033A123456789" }, by rfl, rfl⟩

/-- C1 amended: for every raw blob, the Strategy-A decoder either raises (and
it does so exactly when the parsed `ID_NUMBER` is empty) or returns a record
with non-empty `ID_NUMBER`; `FULL_NAME` is not validated and may be empty in a
returned record. -/
theorem hisgetbasicdata_decode_amended :
    ∀ cs : List Char,
      (hisgetbasicdata_decode cs = Except.error "無法從健保卡資料中提取身份證號碼"
        ↔ (parse_card_data_by_format cs).ID_NUMBER = "")
      ∧ (∀ r, hisgetbasicdata_decode cs = Except.ok r → r.ID_NUMBER ≠ "") := by
  intro cs
  by_cases h : (parse_card_data_by_format cs).ID_NUMBER = ""
  · refine ⟨by simp [hisgetbasicdata_decode, h], ?_⟩
    intro r hr
    simp [hisgetbasicdata_decode, h] at hr
  · refine ⟨by simp [hisgetbasicdata_decode, h], ?_⟩
    intro r hr
    simp [hisgetbasicdata_decode, h] at hr
    rw [← hr]
    exact h

/-! ## C2 -/

/-- C2 counterexample: `normalize_dob "abc"` does not pass the literal input
through tagged with a marker — it returns the fixed marker string
`"資料不完整"`, which is unequal to the input and shares no character with
it. -/
theorem normalize_dob_cex :
    normalize_dob "abc" = "資料不完整"
    ∧ normalize_dob "abc" ≠ "abc"
    ∧ (normalize_dob "abc").data.contains 'a' = false := by
  refine ⟨by rfl, by decide, by rfl⟩

/-- C2 amended: length 8 parses as Gregorian `YYYYMMDD` and length 7 as ROC
`YYYMMDD` (+1911), as claimed; the block never raises, but inputs of any
other stripped length are not passed through tagged — stripped length < 7
becomes the marker `"資料不完整"`, stripped length > 8 is passed through only
when it contains `'/'` and otherwise becomes `"格式不明"`, and an 8-character
input that fails to parse becomes `"格式錯誤"`. -/
theorem normalize_dob_amended :
    normalize_dob "20160615" = "2016/06/15"
    ∧ normalize_dob "1050615" = "2016/06/15"
    ∧ (∀ s : String, (pyStrip s).length < 7 → normalize_dob s = "資料不完整")
    ∧ (∀ s : String, 8 < (pyStrip s).length →
        normalize_dob s =
          if pyContains (pyStrip s) '/' then pyStrip s else "格式不明")
    ∧ (∀ s : String, (pyStrip s).length = 8 → strptime_Ymd (pyStrip s) = none →
        normalize_dob s = "格式錯誤") := by
  refine ⟨by rfl, by rfl, ?_, ?_, ?_⟩
  · intro s h
    have hc : ¬(pyStrip s ≠ "" ∧ 7 ≤ (pyStrip s).length) := by
      rintro ⟨-, h7⟩; omega
    simp only [normalize_dob]
    rw [if_neg hc]
  · intro s h
    have hne : pyStrip s ≠ "" := by
      intro he; rw [he] at h; simp at h
    simp only [normalize_dob]
    rw [if_pos ⟨hne, by omega⟩, if_neg (by omega), if_neg (by omega)]
  · intro s h8 hs
    have hne : pyStrip s ≠ "" := by
      intro he; rw [he] at h8; simp at h8
    simp only [normalize_dob]
    rw [if_pos ⟨hne, by omega⟩, if_pos h8, hs]

/-! ## C4 -/

/-- C4 counterexample: with a filesystem on which the explicit path does not
exist but another (environment-style) location does, the resolver still
returns the non-existent explicit path — non-existent candidates are not
skipped and no other source is consulted. -/
theorem resolve_dll_path_cex :
    resolve_dll_path { exists_ := fun p => p == "C:\\env\\CsHis.dll" }
        (some "C:\\missing\\CsHis.dll") "C:\\proj"
      = "C:\\missing\\CsHis.dll"
    ∧ PathEnv.exists_ { exists_ := fun p => p == "C:\\env\\CsHis.dll" }
        "C:\\missing\\CsHis.dll" = false
    ∧ PathEnv.exists_ { exists_ := fun p => p == "C:\\env\\CsHis.dll" }
        "C:\\env\\CsHis.dll" = true := ⟨by rfl, by rfl, by rfl⟩

/-- C4 amended: a non-empty caller-explicit path is used unconditionally
(no existence check); otherwise the resolver consults only the bundled
project `DLL` folder, trying `CsHis.dll` then `CsHis50.dll` and returning the
first that exists, and falls back to the `CsHis.dll` path when neither exists;
no configuration, environment-variable or standard vendor location is
consulted. -/
theorem resolve_dll_path_amended :
    ∀ (env : PathEnv) (p project_dir : String),
      (p ≠ "" → resolve_dll_path env (some p) project_dir = p)
      ∧ (env.exists_ (joinPath (joinPath project_dir "DLL") "CsHis.dll") = true →
          resolve_dll_path env none project_dir
            = joinPath (joinPath project_dir "DLL") "CsHis.dll")
      ∧ (env.exists_ (joinPath (joinPath project_dir "DLL") "CsHis.dll") = false →
         env.exists_ (joinPath (joinPath project_dir "DLL") "CsHis50.dll") = true →
          resolve_dll_path env none project_dir
            = joinPath (joinPath project_dir "DLL") "CsHis50.dll")
      ∧ (env.exists_ (joinPath (joinPath project_dir "DLL") "CsHis.dll") = false →
         env.exists_ (joinPath (joinPath project_dir "DLL") "CsHis50.dll") = false →
          resolve_dll_path env none project_dir
            = joinPath (joinPath project_dir "DLL") "CsHis.dll")
      ∧ resolve_dll_path env (some "") project_dir
          = resolve_dll_path env none project_dir := by
  intro env p project_dir
  refine ⟨fun hp => by simp [resolve_dll_path, hp], ?_, ?_, ?_, by rfl⟩
  · intro h1
    simp [resolve_dll_path, get_default_dll_path, dll_files, List.find?, h1]
  · intro h1 h2
    simp [resolve_dll_path, get_default_dll_path, dll_files, List.find?, h1, h2]
  · intro h1 h2
    simp [resolve_dll_path, get_default_dll_path, dll_files, List.find?, h1, h2]

/-! ## C5 -/

/-- C5 failing schedule: two `read_patient_info` calls arrive before the
first worker thread has executed `self.is_reading = True`; both pass the
`if self.is_reading` guard, no busy callback is issued, and after both worker
threads begin, two acquisitions are in flight at once. -/
theorem read_patient_info_race :
    (crRun crInit [CRAct.request 1, CRAct.request 2,
                   CRAct.beginWorker 1, CRAct.beginWorker 2]).1.running = [1, 2]
    ∧ (crRun crInit [CRAct.request 1, CRAct.request 2,
                     CRAct.beginWorker 1, CRAct.beginWorker 2]).2 = []
    ∧ 1 < (crRun crInit [CRAct.request 1, CRAct.request 2,
                         CRAct.beginWorker 1, CRAct.beginWorker 2]).1.running.length := by
  refine ⟨by rfl, by rfl, by decide⟩

/-! ## C6 -/

/-- C6: with the DLL loaded, the release step in `read_card`'s `finally` runs
exactly once whatever the read body did; the outcome of `read_card` does not
depend on the native release call's behaviour; and `release()` never lets an
exception propagate. -/
theorem read_card_cleanup_once :
    (∀ (hasRel : Bool) (body : ReadOutcome) (native : Except String Unit),
        (read_card_run true hasRel body native).2 = 1)
    ∧ (∀ (hasRel : Bool) (body : ReadOutcome) (native native2 : Except String Unit),
        (read_card_run true hasRel body native).1
          = (read_card_run true hasRel body native2).1)
    ∧ (∀ (inited hasRel : Bool) (native : Except String Unit),
        (release_run inited hasRel native).1 = none) := by
  refine ⟨?_, ?_, ?_⟩
  · intro hasRel body native
    cases hasRel <;> cases native <;> simp [read_card_run, release_run]
  · intro hasRel body native native2
    cases hasRel <;> cases native <;> cases native2 <;>
      simp [read_card_run, release_run]
  · intro inited hasRel native
    cases inited <;> cases hasRel <;> cases native <;> simp [release_run]

/-! ## C7 -/

/-- C7: for Strategy A's native call, return code 0 means success (no error
raised); codes 4000, 9200 and 9205 raise with the lookup-table messages (card
not inserted / read failed, COM-port open failed, SAM authentication failed);
every other nonzero code raises with the generic message carrying the code
itself. -/
theorem his_error_code_mapping :
    (∀ result : Int, his_result_check result = none ↔ result = 0)
    ∧ his_result_check 4000
        = some "健保卡未插入或讀取失敗\n\n請確認：\n1. 健保卡已正確插入讀卡機\n2. 讀卡機已正確連接至電腦\n3. 讀卡機電源已開啟\n4. 讀卡機驅動程式已正確安裝"
    ∧ his_result_check 9200 = some "COM 埠開啟失敗\n\n請確認讀卡機連接正常"
    ∧ his_result_check 9205 = some "SAM 認證失敗\n\n請確認讀卡機驅動程式已正確安裝"
    ∧ (∀ result : Int, result ≠ 0 → result ≠ 4000 → result ≠ 9200 → result ≠ 9205 →
        his_result_check result
          = some ("hisGetBasicData 執行失敗，錯誤碼: " ++ toString result)) := by
  refine ⟨?_, by rfl, by rfl, by rfl, ?_⟩
  · intro r
    by_cases h : r = 0 <;> simp [his_result_check, h]
  · intro r h0 h1 h2 h3
    have e1 : (r == 4000) = false := by simpa using h1
    have e2 : (r == 9200) = false := by simpa using h2
    have e3 : (r == 9205) = false := by simpa using h3
    simp [his_result_check, dictGet, error_messages, List.lookup, h0, e1, e2, e3]

/-! ## C8 -/

/-- C8 counterexample: when the DLL directory exists, the `chdir` into it
succeeds and the `ctypes.CDLL` load then raises, `_load_dll` propagates the
error with the working directory still set to the DLL directory — the
original working directory is not restored on the failure path. -/
theorem load_dll_cwd_cex :
    load_dll_std
        { cwd := "C:\\app", dirExists := fun p => p == "C:\\drivers",
          chdirOk := fun _ => true, loadErr := some "OSError: load failed" }
        "C:\\drivers\\CsHis.dll"
      = ("C:\\drivers", some ("載入標準健保署 DLL 失敗: " ++ "OSError: load failed"))
    ∧ ("C:\\drivers" : String) ≠ "C:\\app" := ⟨by rfl, by decide⟩

/-- C8 amended: the binder restores the original working directory when the
native load succeeds (and the restore `chdir` succeeds), but when the load
raises it propagates the error without restoring: with the DLL directory
present and `chdir` succeeding, the working directory is left at the DLL's
directory, visible to the caller. -/
theorem load_dll_cwd_amended :
    ∀ (cwd0 dll_path e : String) (fsE : String → Bool),
      (load_dll_std { cwd := cwd0, dirExists := fsE, chdirOk := fun _ => true,
                      loadErr := none } dll_path).1 = cwd0
      ∧ (load_dll_std { cwd := cwd0, dirExists := fun _ => true,
                        chdirOk := fun _ => true, loadErr := some e } dll_path).1
          = pyDirname dll_path
      ∧ (load_dll_std { cwd := cwd0, dirExists := fsE, chdirOk := fun _ => true,
                        loadErr := some e } dll_path).2
          = some ("載入標準健保署 DLL 失敗: " ++ e) := by
  intro cwd0 dll_path e fsE
  refine ⟨?_, by rfl, by rfl⟩
  simp only [load_dll_std]
  split <;> simp

/-! ## C3 -/

/-- C3: the generic (Strategy B) text cascade is delimiter-parse, then
fixed-length, then regex, first success wins: whenever the ordered delimiter
scan finds a delimiter (one of `| , TAB ;`) occurring in the trimmed text
whose split has at least 3 parts, the result is the positional delimiter
mapping (part0=ID, part1=name, part2=birthDate, part3=sex, part4=cardNumber),
regardless of what the other parsers would do; whenever some delimiter
qualifies, the scan finds one; the fixed-length parse decides the result only
when no delimiter qualifies, the regex parse only when the fixed-length parse
also failed; and when all three fail, the unrecognized-format decode error is
raised. -/
theorem csreadcard_cascade_order :
    ∀ raw_data : String,
      (∀ d : Char, firstDelim (pyStrip raw_data) = some d →
          d ∈ delims
          ∧ pyContains (pyStrip raw_data) d = true
          ∧ 3 ≤ (pySplit (pyStrip raw_data) d).length
          ∧ parse_csreadcard_data raw_data =
              Except.ok
                { ID_NUMBER := pyStrip ((pySplit (pyStrip raw_data) d).getD 0 "")
                  FULL_NAME := pyStrip ((pySplit (pyStrip raw_data) d).getD 1 "")
                  BIRTH_DATE := pyStrip ((pySplit (pyStrip raw_data) d).getD 2 "")
                  SEX := pyStrip ((pySplit (pyStrip raw_data) d).getD 3 "")
                  CARD_NUMBER := pyStrip ((pySplit (pyStrip raw_data) d).getD 4 "") })
      ∧ ((∃ d ∈ delims, pyContains (pyStrip raw_data) d = true
            ∧ 3 ≤ (pySplit (pyStrip raw_data) d).length) →
          ∃ d, firstDelim (pyStrip raw_data) = some d)
      ∧ (∀ r, firstDelim (pyStrip raw_data) = none → pyStrip raw_data ≠ "" →
          parse_fixed_length_data (pyStrip raw_data) = some r →
          parse_csreadcard_data raw_data = Except.ok r)
      ∧ (∀ r, firstDelim (pyStrip raw_data) = none → pyStrip raw_data ≠ "" →
          parse_fixed_length_data (pyStrip raw_data) = none →
          parse_regex_data (pyStrip raw_data) = some r →
          parse_csreadcard_data raw_data = Except.ok r)
      ∧ (firstDelim (pyStrip raw_data) = none → pyStrip raw_data ≠ "" →
          parse_fixed_length_data (pyStrip raw_data) = none →
          parse_regex_data (pyStrip raw_data) = none →
          parse_csreadcard_data raw_data =
            Except.error ("解析健保卡資料失敗: " ++ "無法解析 csReadCard 回傳的資料格式")) := by
  intro raw_data
  refine ⟨?_, ?_, ?_, ?_, ?_⟩
  · intro d hd
    have hmem : d ∈ delims := List.mem_of_find?_eq_some hd
    have hp := List.find?_some hd
    rw [Bool.and_eq_true, decide_eq_true_eq] at hp
    have hne : pyStrip raw_data ≠ "" := ne_empty_of_pyContains hp.1
    refine ⟨hmem, hp.1, hp.2, ?_⟩
    simp only [parse_csreadcard_data]
    rw [if_neg hne, hd]
    rfl
  · intro hex
    cases hfd : firstDelim (pyStrip raw_data) with
    | some d => exact ⟨d, rfl⟩
    | none =>
      exfalso
      obtain ⟨d, hmem, hc, hl⟩ := hex
      have := List.find?_eq_none.mp hfd d hmem
      rw [Bool.and_eq_true, decide_eq_true_eq] at this
      exact this ⟨hc, hl⟩
  · intro r hfd hne hfl
    simp only [parse_csreadcard_data]
    rw [if_neg hne, hfd, hfl]
  · intro r hfd hne hfl hre
    simp only [parse_csreadcard_data]
    rw [if_neg hne, hfd, hfl, hre]
  · intro hfd hne hfl hre
    simp only [parse_csreadcard_data]
    rw [if_neg hne, hfd, hfl, hre]

/-! ## C9 -/

/-- C9: `process_raw_data` raises exactly when the stripped ID is empty or not
exactly 10 characters long, or the stripped name is empty; no
letter-plus-9-digits pattern check is performed, so an all-digit 10-character
ID such as `"0123456789"` is accepted. -/
theorem process_raw_data_validation :
    (∀ raw : RawCardInput,
        (∃ e, process_raw_data raw = Except.error e)
          ↔ (pyStrip raw.ID_NUMBER = "" ∨ (pyStrip raw.ID_NUMBER).length ≠ 10
             ∨ pyStrip raw.FULL_NAME = ""))
    ∧ process_raw_data { ID_NUMBER := "0123456789", FULL_NAME := "王小明",
                         BIRTH_DATE := "1050615", SEX := "M" }
        = Except.ok { id := "0123456789", name := "王小明", dob := "2016/06/15",
                      sex := "男" } := by
  refine ⟨?_, by rfl⟩
  intro raw
  simp only [process_raw_data]
  split_ifs with h1 h2
  · simp only [Except.error.injEq, exists_eq']
    constructor
    · intro _
      rcases h1 with h | h
      · exact Or.inl h
      · exact Or.inr (Or.inl h)
    · intro _; trivial
  · simp only [Except.error.injEq, exists_eq']
    constructor
    · intro _
      exact Or.inr (Or.inr h2)
    · intro _; trivial
  · push_neg at h1
    constructor
    · rintro ⟨e, he⟩
      exact absurd he (by simp)
    · rintro (h | h | h)
      · exact absurd h h1.1
      · exact absurd h1.2 h
      · exact absurd h h2

/-! ## C10 -/

/-- C10: once the ordered delimiter scan commits to a delimiter, the
fixed-length and regex parsers are never consulted — the cascade returns the
delimiter record even when its mandatory ID and name parts strip to the empty
string, rather than falling through or raising. -/
theorem delimiter_commit_empty_fields :
    ∀ (raw_data : String) (d : Char),
      firstDelim (pyStrip raw_data) = some d →
      pyStrip ((pySplit (pyStrip raw_data) d).getD 0 "") = "" →
      pyStrip ((pySplit (pyStrip raw_data) d).getD 1 "") = "" →
      ∃ r, parse_csreadcard_data raw_data = Except.ok r
        ∧ r.ID_NUMBER = "" ∧ r.FULL_NAME = "" := by
  intro raw_data d hd h0 h1
  have hp := List.find?_some hd
  rw [Bool.and_eq_true, decide_eq_true_eq] at hp
  have hne : pyStrip raw_data ≠ "" := ne_empty_of_pyContains hp.1
  refine ⟨parse_delimited_data (pySplit (pyStrip raw_data) d), ?_, h0, h1⟩
  simp only [parse_csreadcard_data]
  rw [if_neg hne, hd]

/-- C10 witness: the input `"||"` splits on `'|'` into three empty parts; the
cascade returns a record with empty `ID_NUMBER` and `FULL_NAME`. -/
theorem delimiter_commit_empty_fields_witness :
    ∃ r, parse_csreadcard_data "||" = Except.ok r
      ∧ r.ID_NUMBER = "" ∧ r.FULL_NAME = "" :=
  delimiter_commit_empty_fields "||" '|' (by rfl) (by rfl) (by rfl)

end IDPrinter
